import Mathlib

/-
Verification of the RAG-Sai repository slice (config store + strategy
verification harness) against its natural-language specification.

The development shallowly embeds the two Python source files:
  * `implementation/utils/config_manager.py`  (namespace ConfigManager)
  * `implementation/verify_strategies.py`     (namespace VerifyStrategies)

External collaborators (the filesystem, the `json` library, the database
client, and the strategy module `rag_agent_advanced`) are modelled as
inputs: a file state, a database-initialisation outcome, and one recorded
outcome per strategy call.  Every function of the repository itself is
translated directly from the Python source.
-/

namespace ConfigManager

/-- A JSON value, as produced by the external `json` library.  The config
file holds such a value when it parses; `json.dump`/`json.load` round-trip
a value through its textual form, so the file model stores the value
itself.  (Floating-point numbers are omitted: the configuration schema
uses only integers, strings and booleans.) -/
inductive Json where
  | null
  | bool (b : Bool)
  | int (n : Int)
  | str (s : String)
  | arr (xs : List Json)
  | obj (kvs : List (String × Json))

/-- `DEFAULT_CONFIG` from `config_manager.py`, entries in source order. -/
def DEFAULT_CONFIG : Json :=
  Json.obj [
    ("chunk_size", Json.int 1000),
    ("chunk_overlap", Json.int 200),
    ("chunker_type", Json.str "semantic"),
    ("embedding_model", Json.str "text-embedding-3-small"),
    ("use_contextual_enrichment", Json.bool false)
  ]

/-- State of the backing file `active_config.json` as seen by one call:
absent (`os.path.exists` is false), present but unreadable (`open`/read
raises), present but not valid JSON (`json.load` raises), or present and
parsing to a JSON value. -/
inductive FileState where
  | absent
  | unreadable
  | invalid (raw : String)
  | valid (j : Json)

/-- `load_active_config` from `config_manager.py`: return the default when
the file does not exist; otherwise try to parse it, and on any exception
(unreadable file or invalid JSON) fall back to the default.  Totality of
this function is the model of "no exception propagates to the caller". -/
def load_active_config : FileState → Json
  | FileState.absent => DEFAULT_CONFIG
  | FileState.unreadable => DEFAULT_CONFIG
  | FileState.invalid _ => DEFAULT_CONFIG
  | FileState.valid j => j

/-- `save_active_config` from `config_manager.py`: `json.dump` the mapping
to the file.  `writeOk` models whether the filesystem accepts the write;
a failing write raises (the function has no handler, so the error
propagates), a successful one leaves the file holding the saved value. -/
def save_active_config (config : Json) (writeOk : Bool) : Except String FileState :=
  if writeOk then Except.ok (FileState.valid config)
  else Except.error "write failure"

/-- Dictionary lookup on the entry list of a JSON object. -/
def lookupKey : List (String × Json) → String → Option Json
  | [], _ => none
  | (k, v) :: rest, key => if k == key then some v else lookupKey rest key

/-- Key access on a JSON value: a lookup on an object, `none` otherwise. -/
def objLookup (j : Json) (k : String) : Option Json :=
  match j with
  | Json.obj kvs => lookupKey kvs k
  | _ => none

/-- The looked-up value exists and is an integer. -/
def isIntVal : Option Json → Bool
  | some (Json.int _) => true
  | _ => false

/-- The looked-up value exists and is a string. -/
def isStrVal : Option Json → Bool
  | some (Json.str _) => true
  | _ => false

/-- The looked-up value exists and is a boolean. -/
def isBoolVal : Option Json → Bool
  | some (Json.bool _) => true
  | _ => false

/-- A configuration mapping containing the five recognized keys with
valid scalar types (§3 of the spec): `chunk_size` and `chunk_overlap`
integers, `chunker_type` and `embedding_model` strings,
`use_contextual_enrichment` boolean. -/
def isWellFormedConfig (j : Json) : Bool :=
  match j with
  | Json.obj _ =>
      isIntVal (objLookup j "chunk_size") &&
      isIntVal (objLookup j "chunk_overlap") &&
      isStrVal (objLookup j "chunker_type") &&
      isStrVal (objLookup j "embedding_model") &&
      isBoolVal (objLookup j "use_contextual_enrichment")
  | _ => false

/-- A valid config file that lacks the `chunk_size` key (and three other
recognized keys): used to exhibit that loading performs no merging with
the defaults. -/
def sparseFile : Json :=
  Json.obj [("embedding_model", Json.str "text-embedding-3-large")]

end ConfigManager

namespace VerifyStrategies

/-- A Python value returned by a strategy call: either a `str`, or a value
of some other type, carried as the rendering of `type(result)`. -/
inductive PyValue where
  | str (s : String)
  | other (typeName : String)
deriving DecidableEq

/-- Outcome of one awaited strategy call, as recorded in a trace:
the call returns a value, raises an `Exception` (which `run_test`
catches), or raises a condition outside the `Exception` hierarchy, such
as `KeyboardInterrupt` or a cancellation, which escapes `run_test`. -/
inductive CallOutcome where
  | ret (v : PyValue)
  | exn (msg : String)
  | interrupted (msg : String)
deriving DecidableEq

/-- Whether the outcome escapes the `except Exception` handler of
`run_test`. -/
def isIntr : CallOutcome → Bool
  | CallOutcome.interrupted _ => true
  | _ => false

/-- Python `pre.startswith(sub)` on `s`: character-list prefix test. -/
def strStartsWith (s pre : String) : Bool :=
  decide (pre.data <+: s.data)

/-- Python `sub in s`: character-list substring test. -/
def strContains (s sub : String) : Bool :=
  decide (sub.data <:+: s.data)

/-- Python `str(result)[:200] + "..."` from `run_test`: the first 200
characters of the text followed by an ellipsis, applied unconditionally. -/
def truncate200 (s : String) : String :=
  String.mk (s.data.take 200) ++ "..."

/-- The error-shaped-string test of `run_test`: the text starts with
"Error", starts with "Search error", or contains "encountered an error". -/
def isErrorText (s : String) : Bool :=
  strStartsWith s "Error" || strStartsWith s "Search error" ||
    strContains s "encountered an error"

/-- The `TestResult` dataclass: name, status ("PASS" | "FAIL" | "SKIP"),
wall-clock duration in milliseconds (supplied by the trace; modelled as a
natural number, no claim depends on its value), output text (default ""),
error text (default ""). -/
structure TestResult where
  name : String
  status : String
  duration_ms : Nat
  output : String
  error : String
deriving DecidableEq

/-- `StrategyTester.run_test`: await the call; if it returns, classify —
a non-string value is FAIL with a synthesized "Unexpected return type"
message, an error-shaped string is FAIL, any other string is PASS, and in
all three completed cases the output field holds the truncated text.  An
`Exception` is caught and becomes FAIL with the error field set and no
output.  A condition outside `Exception` is not caught: it propagates
(`Except.error`), and no `TestResult` is produced for the entry. -/
def run_test (name : String) (oc : CallOutcome) (d : Nat) : Except String TestResult :=
  match oc with
  | CallOutcome.ret (PyValue.str s) =>
      if isErrorText s then
        Except.ok ⟨name, "FAIL", d, truncate200 s, ""⟩
      else
        Except.ok ⟨name, "PASS", d, truncate200 s, ""⟩
  | CallOutcome.ret (PyValue.other ty) =>
      Except.ok ⟨name, "FAIL", d, truncate200 ("Unexpected return type: " ++ ty), ""⟩
  | CallOutcome.exn m =>
      Except.ok ⟨name, "FAIL", d, "", m⟩
  | CallOutcome.interrupted m =>
      Except.error m

/-- The ten registered test names, in the exact order `run_all` invokes
them. -/
def strategyNames : List String :=
  [ "Baseline: search_knowledge_base",
    "Strategy: search_with_multi_query",
    "Strategy: search_with_reranking",
    "Strategy: search_with_self_reflection",
    "Strategy: search_with_hybrid_retrieval",
    "Edge Case: retrieve_full_document (missing)",
    "Strategy: answer_with_fact_verification",
    "Strategy: answer_with_multi_hop",
    "Strategy: answer_with_uncertainty",
    "Input Validation: Empty Query" ]

/-- One run's environment and recorded external behaviour: the two
credential variables as `os.getenv` sees them, the outcome of
`initialize_db`, and the outcome and duration of each strategy call the
run performs, in invocation order. -/
structure Trace where
  database_url : Option String
  openai_api_key : Option String
  dbInit : Except String Unit
  outcomes : List (CallOutcome × Nat)

/-- Python falsiness of `os.getenv(...)`: the variable is unset, or set
to the empty string. -/
def envMissing : Option String → Bool
  | none => true
  | some s => s == ""

/-- `StrategyTester.setup`: raise `ValueError` if either credential is
missing, then await `initialize_db`, re-raising its failure.
`db_initialized` is set exactly when the result is `Except.ok`. -/
def setup (t : Trace) : Except String Unit :=
  if envMissing t.database_url then Except.error "DATABASE_URL is missing in .env"
  else if envMissing t.openai_api_key then Except.error "OPENAI_API_KEY is missing in .env"
  else t.dbInit

/-- The Execute phase: run each (name, outcome, duration) entry in order,
appending each produced `TestResult`.  A caught outcome (`Except.ok`)
lets the run continue; an escaping condition stops the phase, keeping the
results accumulated so far and carrying the condition. -/
def runTests : List (String × CallOutcome × Nat) → List TestResult × Option String
  | [] => ([], none)
  | (n, oc, d) :: rest =>
      match run_test n oc d with
      | Except.ok r =>
          let p := runTests rest
          (r :: p.1, p.2)
      | Except.error m => ([], some m)

/-- Observable state of one `run_all` invocation: the accumulated
results, the `db_initialized` flag, whether `close_db` was awaited
(teardown), whether `print_report` ran, and the condition, if any, that
propagated out of `run_all`. -/
structure RunState where
  results : List TestResult
  db_initialized : Bool
  db_released : Bool
  reported : Bool
  raised : Option String

/-- `StrategyTester.run_all`: setup, then the ten tests in sequence, then
teardown, then the report.  The body has no try/finally: a setup failure
propagates before any test, and a condition escaping the Execute phase
propagates immediately — neither teardown nor the report runs on those
paths.  Only the straight-line path reaches `teardown()` and
`print_report()`. -/
def run_all (t : Trace) : RunState :=
  match setup t with
  | Except.error m => ⟨[], false, false, false, some m⟩
  | Except.ok _ =>
      let p := runTests (List.zipWith (fun n q => (n, q.1, q.2)) strategyNames t.outcomes)
      match p.2 with
      | some m => ⟨p.1, true, false, false, some m⟩
      | none => ⟨p.1, true, true, true, none⟩

/-- The exit contribution of `StrategyTester.print_report`: any result
whose status is not "PASS" is counted as failed, and `failed > 0` makes
the report call `sys.exit(1)`; otherwise the function returns and the
process later ends normally (status 0). -/
def print_report (results : List TestResult) : Nat :=
  if results.any (fun r => !(r.status == "PASS")) then 1 else 0

/-- The process exit status of the `__main__` block.  `sys.exit(1)` from
`print_report` raises `SystemExit`, which neither `except
KeyboardInterrupt` nor `except Exception` catches, so it reaches the
interpreter as status 1.  Any condition that propagates out of `run_all`
(a setup `ValueError`, a re-raised database error, or an interruption) is
caught by one of the two handlers, which print a message and return:
execution falls off the end of the script and the process exits with
status 0. -/
def mainExitCode (t : Trace) : Nat :=
  match (run_all t).raised with
  | some _ => 0
  | none => print_report (run_all t).results

/-- A run with the database credential unset: setup raises before any
test. -/
def tMissingDb : Trace :=
  ⟨none, some "sk-test-key", Except.ok (), []⟩

/-- A run with the API-key credential unset. -/
def tMissingKey : Trace :=
  ⟨some "postgres://localhost/ragdb", none, Except.ok (), []⟩

/-- A run with valid credentials in which every strategy call completes
or raises an ordinary `Exception`; outcomes exercise every
classification branch. -/
def tMix : Trace :=
  ⟨some "postgres://localhost/ragdb", some "sk-test-key", Except.ok (),
   [ (CallOutcome.ret (PyValue.str "Found 5 relevant chunks"), 12),
     (CallOutcome.exn "connection reset by peer", 30),
     (CallOutcome.ret (PyValue.str "Error: model unavailable"), 8),
     (CallOutcome.ret (PyValue.other "class list"), 5),
     (CallOutcome.ret (PyValue.str "Search error: index missing"), 9),
     (CallOutcome.ret (PyValue.str "Document not found in store"), 4),
     (CallOutcome.ret (PyValue.str "The claim is supported by the sources"), 21),
     (CallOutcome.exn "rate limit exceeded", 15),
     (CallOutcome.ret (PyValue.str "the query encountered an error downstream"), 11),
     (CallOutcome.ret (PyValue.str "No results for an empty query"), 2) ]⟩

/-- A short clean run: one success and one caught exception. -/
def tClean : Trace :=
  ⟨some "postgres://localhost/ragdb", some "sk-test-key", Except.ok (),
   [ (CallOutcome.ret (PyValue.str "Found 5 relevant chunks"), 12),
     (CallOutcome.exn "connection reset by peer", 30) ]⟩

/-- A run interrupted (a condition outside `Exception`, here a
`KeyboardInterrupt`) during the third strategy call, after the database
was acquired. -/
def tIntr : Trace :=
  ⟨some "postgres://localhost/ragdb", some "sk-test-key", Except.ok (),
   [ (CallOutcome.ret (PyValue.str "Found 5 relevant chunks"), 12),
     (CallOutcome.ret (PyValue.str "Expanded into 4 sub-queries"), 18),
     (CallOutcome.interrupted "KeyboardInterrupt", 40),
     (CallOutcome.ret (PyValue.str "never reached"), 1),
     (CallOutcome.ret (PyValue.str "never reached"), 1),
     (CallOutcome.ret (PyValue.str "never reached"), 1),
     (CallOutcome.ret (PyValue.str "never reached"), 1),
     (CallOutcome.ret (PyValue.str "never reached"), 1),
     (CallOutcome.ret (PyValue.str "never reached"), 1),
     (CallOutcome.ret (PyValue.str "never reached"), 1) ]⟩

end VerifyStrategies

namespace ConfigManager

/-- C7: `load()` never propagates an exception to the caller: whenever the
backing config file is absent, unreadable, or not valid structured data,
it returns the built-in default mapping unmodified.  (Totality of
`load_active_config : FileState → Json` embeds exception-freedom; the
equality is the fallback behaviour.) -/
theorem load_fallback_default (fs : FileState)
    (h : fs = FileState.absent ∨ fs = FileState.unreadable ∨
      ∃ raw, fs = FileState.invalid raw) :
    load_active_config fs = DEFAULT_CONFIG := by
  rcases h with h | h | ⟨raw, h⟩ <;> subst h <;> rfl

theorem load_fallback_default_witness :
    (FileState.absent = FileState.absent ∨ FileState.absent = FileState.unreadable ∨
      ∃ raw, FileState.absent = FileState.invalid raw) ∧
    load_active_config FileState.absent = DEFAULT_CONFIG :=
  ⟨Or.inl rfl, load_fallback_default FileState.absent (Or.inl rfl)⟩

/-- C8: for any configuration mapping containing the five recognized keys
with valid scalar types, saving it and then loading returns a mapping
equal to what was saved, provided the write succeeds. -/
theorem save_load_round_trip (c : Json) (fs2 : FileState)
    (_hc : isWellFormedConfig c = true)
    (hw : save_active_config c true = Except.ok fs2) :
    load_active_config fs2 = c := by
  have h2 : FileState.valid c = fs2 := by
    simpa [save_active_config] using hw
  subst h2
  rfl

theorem save_load_round_trip_witness :
    isWellFormedConfig DEFAULT_CONFIG = true ∧
    save_active_config DEFAULT_CONFIG true = Except.ok (FileState.valid DEFAULT_CONFIG) ∧
    load_active_config (FileState.valid DEFAULT_CONFIG) = DEFAULT_CONFIG :=
  ⟨rfl, rfl, save_load_round_trip DEFAULT_CONFIG (FileState.valid DEFAULT_CONFIG) rfl rfl⟩

/-- C9: when the backing file exists and contains valid JSON, `load()`
returns the parsed content verbatim, with no merging of defaults: a file
missing some recognized keys (here `sparseFile`, which lacks
`chunk_size`) loads to a mapping lacking them, even though the default
mapping has `chunk_size`.  So not every successfully loaded file carries
all five recognized keys. -/
theorem load_verbatim_no_merge :
    (∀ j : Json, load_active_config (FileState.valid j) = j) ∧
    load_active_config (FileState.valid sparseFile) = sparseFile ∧
    objLookup sparseFile "chunk_size" = none ∧
    objLookup DEFAULT_CONFIG "chunk_size" = some (Json.int 1000) :=
  ⟨fun _ => rfl, rfl, rfl, rfl⟩

end ConfigManager

namespace VerifyStrategies

theorem truncate200_length_le (s : String) : (truncate200 s).length ≤ 203 := by
  have h : (truncate200 s).length = (s.data.take 200).length + 3 := by
    show (s.data.take 200 ++ "...".data).length = (s.data.take 200).length + 3
    rw [List.length_append]
    rfl
  have h2 : (s.data.take 200).length ≤ 200 := List.length_take_le 200 s.data
  omega

/-- C3: for every strategy invocation that completes without raising: a
non-string value yields FAIL with a synthesized message naming the
unexpected type; a string starting with "Error" or "Search error" or
containing "encountered an error" yields FAIL; any other string yields
PASS; and in all completed cases the stored output is the text truncated
to a bounded preview length (at most 203 characters). -/
theorem completed_call_classification (name s ty : String) (d : Nat) :
    run_test name (CallOutcome.ret (PyValue.str s)) d =
      Except.ok ⟨name,
        if strStartsWith s "Error" || strStartsWith s "Search error" ||
            strContains s "encountered an error" then "FAIL" else "PASS",
        d, truncate200 s, ""⟩ ∧
    run_test name (CallOutcome.ret (PyValue.other ty)) d =
      Except.ok ⟨name, "FAIL", d, truncate200 ("Unexpected return type: " ++ ty), ""⟩ ∧
    (truncate200 s).length ≤ 203 := by
  refine ⟨?_, rfl, truncate200_length_le s⟩
  by_cases h : (strStartsWith s "Error" || strStartsWith s "Search error" ||
      strContains s "encountered an error") = true
  · have h2 : isErrorText s = true := h
    simp only [run_test, h, h2, if_true]
  · simp only [Bool.not_eq_true] at h
    have h2 : isErrorText s = false := h
    simp only [run_test, h, h2, Bool.false_eq_true, if_false]

/-- C5: for every strategy invocation that raises an `Exception`, the
recorded `TestResult` has status FAIL, its error field set to the
exception's text, and an empty output field. -/
theorem exception_result_fields (name msg : String) (d : Nat) :
    run_test name (CallOutcome.exn msg) d =
      Except.ok ⟨name, "FAIL", d, "", msg⟩ :=
  rfl

/-- C10: a FAIL classified from an error-shaped string stores the
truncated result text in the output field and leaves the error field
empty, while the exception path stores the exception text in the error
field and leaves the output field empty. -/
theorem fail_field_population (name s msg : String) (d : Nat)
    (h : (strStartsWith s "Error" || strStartsWith s "Search error" ||
      strContains s "encountered an error") = true) :
    run_test name (CallOutcome.ret (PyValue.str s)) d =
      Except.ok ⟨name, "FAIL", d, truncate200 s, ""⟩ ∧
    run_test name (CallOutcome.exn msg) d =
      Except.ok ⟨name, "FAIL", d, "", msg⟩ := by
  constructor
  · simp [run_test, isErrorText, h]
  · rfl

theorem fail_field_population_witness :
    ((strStartsWith "Error: boom" "Error" || strStartsWith "Error: boom" "Search error" ||
      strContains "Error: boom" "encountered an error") = true) ∧
    (run_test "t" (CallOutcome.ret (PyValue.str "Error: boom")) 7 =
      Except.ok ⟨"t", "FAIL", 7, truncate200 "Error: boom", ""⟩ ∧
    run_test "t" (CallOutcome.exn "db down") 7 =
      Except.ok ⟨"t", "FAIL", 7, "", "db down"⟩) :=
  ⟨by decide, fail_field_population "t" "Error: boom" "db down" 7 (by decide)⟩

end VerifyStrategies

namespace VerifyStrategies

theorem run_test_ok_name (n : String) (oc : CallOutcome) (d : Nat)
    (h : isIntr oc = false) :
    ∃ r, run_test n oc d = Except.ok r ∧ r.name = n := by
  cases oc with
  | ret v =>
      cases v with
      | str s =>
          by_cases he : isErrorText s
          · refine ⟨⟨n, "FAIL", d, truncate200 s, ""⟩, ?_, rfl⟩
            simp only [run_test, he, if_true]
          · simp only [Bool.not_eq_true] at he
            refine ⟨⟨n, "PASS", d, truncate200 s, ""⟩, ?_, rfl⟩
            simp only [run_test, he, Bool.false_eq_true, if_false]
      | other ty =>
          exact ⟨⟨n, "FAIL", d, truncate200 ("Unexpected return type: " ++ ty), ""⟩, rfl, rfl⟩
  | exn m => exact ⟨⟨n, "FAIL", d, "", m⟩, rfl, rfl⟩
  | interrupted m => simp [isIntr] at h

theorem runTests_zip_err (ns : List String) (os : List (CallOutcome × Nat))
    (hno : ∀ q ∈ os, isIntr q.1 = false) :
    (runTests (List.zipWith (fun n q => (n, q.1, q.2)) ns os)).2 = none := by
  induction ns generalizing os with
  | nil => simp [runTests]
  | cons n ns ih =>
      cases os with
      | nil => simp [runTests]
      | cons q os2 =>
          obtain ⟨oc, d⟩ := q
          have hq : isIntr oc = false := hno _ (List.mem_cons_self _ _)
          obtain ⟨r, hr, _⟩ := run_test_ok_name n oc d hq
          have hrest := ih os2 (fun x hx => hno x (List.mem_cons_of_mem _ hx))
          simp only [List.zipWith_cons_cons, runTests, hr]
          exact hrest

theorem runTests_zip_names (ns : List String) (os : List (CallOutcome × Nat))
    (hlen : ns.length = os.length)
    (hno : ∀ q ∈ os, isIntr q.1 = false) :
    (runTests (List.zipWith (fun n q => (n, q.1, q.2)) ns os)).1.map TestResult.name = ns := by
  induction ns generalizing os with
  | nil => simp [runTests]
  | cons n ns ih =>
      cases os with
      | nil => simp at hlen
      | cons q os2 =>
          obtain ⟨oc, d⟩ := q
          have hq : isIntr oc = false := hno _ (List.mem_cons_self _ _)
          obtain ⟨r, hr, hname⟩ := run_test_ok_name n oc d hq
          have hrest := ih os2 (by simpa using hlen) (fun x hx => hno x (List.mem_cons_of_mem _ hx))
          simp only [List.zipWith_cons_cons, runTests, hr, List.map_cons]
          rw [hname, hrest]

theorem run_all_ok_state (t : Trace) (h1 : setup t = Except.ok ())
    (herr : (runTests (List.zipWith (fun n q => (n, q.1, q.2)) strategyNames t.outcomes)).2 = none) :
    run_all t =
      ⟨(runTests (List.zipWith (fun n q => (n, q.1, q.2)) strategyNames t.outcomes)).1,
        true, true, true, none⟩ := by
  simp only [run_all, h1, herr]

/-- C1 (amended): when a fatal setup or critical error (or an
interruption) propagates out of `run_all`, the process prints it and
terminates with exit status 0 — the top-level handlers swallow the
condition without calling `sys.exit`; exit status 1 occurs exactly when
the run reaches the report with at least one non-PASS result, and the
status is 0 in every other case. -/
theorem exit_status_spec (t : Trace) :
    (mainExitCode t = 0 ∨ mainExitCode t = 1) ∧
    (mainExitCode t = 1 ↔
      (run_all t).raised = none ∧
      (run_all t).results.any (fun r => !(r.status == "PASS")) = true) := by
  cases h : (run_all t).raised with
  | some m =>
      refine ⟨Or.inl ?_, ?_, ?_⟩
      · simp [mainExitCode, h]
      · intro h1
        simp [mainExitCode, h] at h1
      · rintro ⟨h2, _⟩
        exact absurd h2 (by simp)
  | none =>
      by_cases ha : (run_all t).results.any (fun r => !(r.status == "PASS")) = true
      · exact ⟨Or.inr (by simp [mainExitCode, print_report, h, ha]),
          by simp [mainExitCode, print_report, h, ha]⟩
      · exact ⟨Or.inl (by simp [mainExitCode, print_report, h, ha]),
          by simp [mainExitCode, print_report, h, ha]⟩

/-- C1 counterexample: with the database credential unset, a fatal setup
error propagates out of `run_all` (so no test passed), yet the process
exit status is 0, not 1 — refuting both directions of the claim as
stated. -/
theorem critical_failure_exit_counterexample :
    (run_all tMissingDb).raised = some "DATABASE_URL is missing in .env" ∧
    (run_all tMissingDb).results = [] ∧
    mainExitCode tMissingDb = 0 :=
  ⟨rfl, rfl, rfl⟩

/-- C2 (amended): teardown (release of the database) runs on every run
in which setup succeeds and each strategy call either returns or raises
an ordinary `Exception` (which `run_test` catches); only on such runs —
a condition outside `Exception` escaping the Execute phase skips it. -/
theorem teardown_runs_when_no_escape (t : Trace)
    (h1 : setup t = Except.ok ())
    (h3 : ∀ q ∈ t.outcomes, isIntr q.1 = false) :
    (run_all t).db_initialized = true ∧ (run_all t).db_released = true := by
  have herr := runTests_zip_err strategyNames t.outcomes h3
  rw [run_all_ok_state t h1 herr]
  exact ⟨rfl, rfl⟩

theorem teardown_runs_when_no_escape_witness :
    (setup tClean = Except.ok () ∧ (∀ q ∈ tClean.outcomes, isIntr q.1 = false)) ∧
    ((run_all tClean).db_initialized = true ∧ (run_all tClean).db_released = true) :=
  ⟨⟨rfl, by decide⟩, teardown_runs_when_no_escape tClean rfl (by decide)⟩

/-- C2 counterexample: in a run where the database was acquired and the
third strategy call raises a condition outside `Exception` (an
interruption), `run_all` has no try/finally, so the exit path taken
skips teardown: the resource is never released. -/
theorem teardown_skip_counterexample :
    (run_all tIntr).db_initialized = true ∧
    (run_all tIntr).db_released = false ∧
    (run_all tIntr).raised = some "KeyboardInterrupt" :=
  ⟨rfl, rfl, rfl⟩

/-- C4: for every run in which setup succeeds and each of the ten
registered strategy calls either returns a value or raises an
`Exception`, exactly ten `TestResult`s are produced, one per registered
strategy, in the exact order the strategies are listed. -/
theorem ten_results_in_order (t : Trace)
    (h1 : setup t = Except.ok ())
    (h2 : t.outcomes.length = 10)
    (h3 : ∀ q ∈ t.outcomes, isIntr q.1 = false) :
    (run_all t).results.length = 10 ∧
    (run_all t).results.map TestResult.name = strategyNames := by
  have hlen : strategyNames.length = t.outcomes.length := by rw [h2]; rfl
  have hnames := runTests_zip_names strategyNames t.outcomes hlen h3
  have herr := runTests_zip_err strategyNames t.outcomes h3
  rw [run_all_ok_state t h1 herr]
  refine ⟨?_, hnames⟩
  have hl := congrArg List.length hnames
  simpa using hl

theorem ten_results_in_order_witness :
    (setup tMix = Except.ok () ∧ tMix.outcomes.length = 10 ∧
      (∀ q ∈ tMix.outcomes, isIntr q.1 = false)) ∧
    ((run_all tMix).results.length = 10 ∧
      (run_all tMix).results.map TestResult.name = strategyNames) :=
  ⟨⟨rfl, rfl, by decide⟩, ten_results_in_order tMix rfl rfl (by decide)⟩

/-- C6: if either required environment credential is missing, the run
fails during setup with a configuration error: the database is never
initialised, zero `TestResult`s are produced, and no report is printed. -/
theorem missing_credential_aborts (t : Trace)
    (h : t.database_url = none ∨ t.openai_api_key = none) :
    (run_all t).results = [] ∧ (run_all t).raised.isSome = true ∧
    (run_all t).reported = false ∧ (run_all t).db_initialized = false := by
  have hs : ∃ m, setup t = Except.error m := by
    rcases h with h | h
    · have hd : envMissing t.database_url = true := by rw [h]; rfl
      exact ⟨"DATABASE_URL is missing in .env", by simp [setup, hd]⟩
    · by_cases hdb : envMissing t.database_url = true
      · exact ⟨"DATABASE_URL is missing in .env", by simp [setup, hdb]⟩
      · simp only [Bool.not_eq_true] at hdb
        have hk : envMissing t.openai_api_key = true := by rw [h]; rfl
        exact ⟨"OPENAI_API_KEY is missing in .env", by simp [setup, hdb, hk]⟩
  obtain ⟨m, hm⟩ := hs
  simp [run_all, hm]

theorem missing_credential_aborts_witness :
    (tMissingKey.database_url = none ∨ tMissingKey.openai_api_key = none) ∧
    ((run_all tMissingKey).results = [] ∧ (run_all tMissingKey).raised.isSome = true ∧
      (run_all tMissingKey).reported = false ∧ (run_all tMissingKey).db_initialized = false) :=
  ⟨Or.inr rfl, missing_credential_aborts tMissingKey (Or.inr rfl)⟩

end VerifyStrategies
